import Mathlib

/-!
Verification of the SolScout multi-service platform against its specification.
Shallow embedding of the C++ sources: doubles are modelled as rationals,
machine ints as integers, wall-clock timestamps as natural-number seconds,
and Redis/bus calls as explicit state passing with `Except`-style failure.
-/

namespace SolScout

/-- Semantics of C++ `static_cast<int>(double)`: truncation toward zero. -/
def cppTrunc (q : ℚ) : ℤ := if q < 0 then ⌈q⌉ else ⌊q⌋

namespace Analytics

/-- The scoring/band fields of the analytics `Config`
(src/analytics/src/config.hpp). -/
structure Config where
  actionable_base_threshold : ℤ
  risk_on_adj : ℤ
  risk_off_adj : ℤ
  hygiene_penalty : ℤ
  min_dq_for_actionable : ℚ
  max_rug_cap : ℤ
  headsup_min : ℤ
  headsup_max : ℤ
  high_conviction_min : ℤ

/-- Default values of the scoring fields in src/analytics/src/config.hpp. -/
def defaultConfig : Config :=
  { actionable_base_threshold := 70
    risk_on_adj := -10
    risk_off_adj := 10
    hygiene_penalty := 10
    min_dq_for_actionable := 7/10
    max_rug_cap := 55
    headsup_min := 60
    headsup_max := 69
    high_conviction_min := 85 }

/-- The signal fields of `SignalResult` read by the scorer
(src/analytics/src/types.hpp). -/
structure SignalResult where
  s1_liquidity : ℚ
  s2_volume : ℚ
  s3_momentum_1h : ℚ
  s4_momentum_24h : ℚ
  s5_volatility : ℚ
  s6_price_discovery : ℚ
  s7_rug_risk : ℚ
  s8_tradability : ℚ
  s9_relative_strength : ℚ
  s10_route_quality : ℚ
  n1_hygiene : ℚ
  data_quality : ℚ

/-- The weighted sum computed in `ConfidenceScorer::calculate_confidence`
(src/analytics/src/scoring.cpp, weights 0.15/0.15/0.10/0.10/0.05/0.05/0.20/0.10/0.05/0.05). -/
def weighted_sum (s : SignalResult) : ℚ :=
  (15/100) * s.s1_liquidity +
  (15/100) * s.s2_volume +
  (10/100) * s.s3_momentum_1h +
  (10/100) * s.s4_momentum_24h +
  (5/100) * s.s5_volatility +
  (5/100) * s.s6_price_discovery +
  (20/100) * s.s7_rug_risk +
  (10/100) * s.s8_tradability +
  (5/100) * s.s9_relative_strength +
  (5/100) * s.s10_route_quality

/-- `ConfidenceScorer::calculate_confidence` (src/analytics/src/scoring.cpp). -/
def calculate_confidence (cfg : Config) (s : SignalResult) : ℤ :=
  if s.data_quality < cfg.min_dq_for_actionable then
    min 50 (cppTrunc (s.data_quality * 100))
  else
    let base_score := cppTrunc (weighted_sum s * 100)
    let base_score := if s.n1_hygiene < 1/2 then base_score - cfg.hygiene_penalty else base_score
    let base_score := if s.s7_rug_risk < 1/2 then min base_score cfg.max_rug_cap else base_score
    max 0 (min 100 base_score)

/-- `ConfidenceScorer::determine_band` (src/analytics/src/scoring.cpp). -/
def determine_band (cfg : Config) (confidence_score : ℤ)
    (entry_confirmed net_edge_ok : Bool) : String :=
  if !entry_confirmed then "watch"
  else if !net_edge_ok then "watch"
  else if confidence_score ≥ cfg.high_conviction_min then "high_conviction"
  else if confidence_score ≥ cfg.actionable_base_threshold then "actionable"
  else if confidence_score ≥ cfg.headsup_min ∧ confidence_score ≤ cfg.headsup_max then "heads_up"
  else "watch"

/-- `ConfidenceScorer::apply_risk_adjustment` (src/analytics/src/scoring.cpp). -/
def apply_risk_adjustment (cfg : Config) (base_score : ℤ) (risk_on : Bool) : ℤ :=
  if risk_on then min 100 (base_score + cfg.risk_on_adj)
  else max 0 (base_score + cfg.risk_off_adj)

/-- The band rule exactly as §4.4 of the specification words it:
watch on a failed gate, otherwise thresholds top-down with the
heads-up interval test. This definition follows the SPEC, for
comparison with `determine_band`, which follows the source. -/
def specBand (cfg : Config) (c : ℤ) (entry_confirmed net_edge_ok : Bool) : String :=
  if entry_confirmed = false ∨ net_edge_ok = false then "watch"
  else if c ≥ cfg.high_conviction_min then "high_conviction"
  else if c ≥ cfg.actionable_base_threshold then "actionable"
  else if cfg.headsup_min ≤ c ∧ c ≤ cfg.headsup_max then "heads_up"
  else "watch"

/-- All sub-signals zero, data quality zero: a valid `SignalResult`
with every field in [0,1]. -/
def zeroSignals : SignalResult :=
  { s1_liquidity := 0, s2_volume := 0, s3_momentum_1h := 0, s4_momentum_24h := 0
    s5_volatility := 0, s6_price_discovery := 0, s7_rug_risk := 0, s8_tradability := 0
    s9_relative_strength := 0, s10_route_quality := 0, n1_hygiene := 0, data_quality := 0 }

/-- All sub-signals one, data quality one: a valid `SignalResult`
with every field in [0,1]. -/
def oneSignals : SignalResult :=
  { s1_liquidity := 1, s2_volume := 1, s3_momentum_1h := 1, s4_momentum_24h := 1
    s5_volatility := 1, s6_price_discovery := 1, s7_rug_risk := 1, s8_tradability := 1
    s9_relative_strength := 1, s10_route_quality := 1, n1_hygiene := 1, data_quality := 1 }

/-- A `SignalResult` whose data quality is 1/8 = 0.125 (exactly representable
as a binary double), below the default `min_dq_for_actionable` of 0.7. -/
def lowDqSignals : SignalResult :=
  { s1_liquidity := 1, s2_volume := 1, s3_momentum_1h := 1, s4_momentum_24h := 1
    s5_volatility := 1, s6_price_discovery := 1, s7_rug_risk := 1, s8_tradability := 1
    s9_relative_strength := 1, s10_route_quality := 1, n1_hygiene := 1, data_quality := 1/8 }

/-- A `SignalResult` with data quality 1/2, below the default threshold. -/
def halfDqSignals : SignalResult :=
  { s1_liquidity := 0, s2_volume := 0, s3_momentum_1h := 0, s4_momentum_24h := 0
    s5_volatility := 0, s6_price_discovery := 0, s7_rug_risk := 0, s8_tradability := 0
    s9_relative_strength := 0, s10_route_quality := 0, n1_hygiene := 0, data_quality := 1/2 }

/-- The fields of the analytics `MarketUpdate` (src/analytics/src/types.hpp)
read by the signal calculations verified here. -/
structure MarketUpdate where
  pool_id : String
  mint_base : String
  mint_quote : String
  symbol : String
  price : ℚ
  liq_usd : ℚ
  vol24h_usd : ℚ
  spread_pct : ℚ
  impact_1pct_pct : ℚ
  age_hours : ℚ

/-- `TokenMetadata` (src/analytics/src/types.hpp), fields read by the
rug-risk signal. -/
structure TokenMetadata where
  mint : String
  symbol : String
  decimals : ℤ
  on_token_list : Bool
  top_holder_pct : ℚ
  risky_authorities : Bool

/-- The age factor inside `SignalCalculator::calculate_s7_rug_risk`
(src/analytics/src/signals.cpp): `std::min(1.0, update.age_hours / 720.0)`. -/
def s7_age_factor (u : MarketUpdate) : ℚ := min 1 (u.age_hours / 720)

/-- The holder-concentration factor inside `calculate_s7_rug_risk`:
1.0 unless `top_holder_pct > 0`, else `std::max(0.0, 1.0 - pct / 100.0)`. -/
def s7_holder_factor (m : TokenMetadata) : ℚ :=
  if m.top_holder_pct > 0 then max 0 (1 - m.top_holder_pct / 100) else 1

/-- The authority factor inside `calculate_s7_rug_risk`:
0.7 when `risky_authorities`, else 1.0. -/
def s7_auth_factor (m : TokenMetadata) : ℚ :=
  if m.risky_authorities then 7/10 else 1

/-- `SignalCalculator::calculate_s7_rug_risk` (src/analytics/src/signals.cpp):
with metadata the score is `0.7 * age_factor * holder_factor * auth_factor`,
without metadata it is 0.5; the result is capped by `std::min(0.9, score)`. -/
def calculate_s7_rug_risk (u : MarketUpdate) (metadata : Option TokenMetadata) : ℚ :=
  let score : ℚ :=
    match metadata with
    | some m => (7/10) * s7_age_factor u * s7_holder_factor m * s7_auth_factor m
    | none => 1/2
  min (9/10) score

/-- A sample market update used to instantiate theorems. -/
def sampleUpdate : MarketUpdate :=
  { pool_id := "p1", mint_base := "MintA", mint_quote := "So11111111111111111111111111111111111111112"
    symbol := "A/SOL", price := 1, liq_usd := 600000, vol24h_usd := 3000000
    spread_pct := 1/2, impact_1pct_pct := 3/10, age_hours := 200 }

/-- A sample token metadata record used to instantiate theorems. -/
def sampleMetadata : TokenMetadata :=
  { mint := "MintA", symbol := "A", decimals := 9, on_token_list := true
    top_holder_pct := 30, risky_authorities := true }

/-- The configuration fields read by `ThrottleManager`
(src/analytics/src/throttles.cpp): per-band cooldown minutes,
the rate-limit window and the global and per-band caps. -/
structure ThrottleConfig where
  cooldown_high_conviction_min : ℕ
  cooldown_actionable_min : ℕ
  cooldown_headsup_min : ℕ
  cooldown_watch_min : ℕ
  rate_limit_window_min : ℕ
  max_alerts_per_window : ℕ
  max_high_conviction_per_window : ℕ
  max_actionable_per_window : ℕ
  max_headsup_per_window : ℕ
  max_watch_per_window : ℕ

/-- `AlertRecord` (src/analytics/src/throttles.hpp): mint, band and the
record timestamp, modelled in whole seconds since the epoch. -/
structure AlertRecord where
  mint : String
  band : String
  ts : ℕ
deriving DecidableEq

/-- `duration_cast<minutes>(now - ts).count()`: whole elapsed minutes,
truncated (timestamps in seconds). -/
def elapsedMin (now ts : ℕ) : ℕ := (now - ts) / 60

/-- The per-band cooldown selection in `ThrottleManager::should_throttle`. -/
def cooldown_of (cfg : ThrottleConfig) (band : String) : ℕ :=
  if band = "high_conviction" then cfg.cooldown_high_conviction_min
  else if band = "actionable" then cfg.cooldown_actionable_min
  else if band = "heads_up" then cfg.cooldown_headsup_min
  else cfg.cooldown_watch_min

/-- The per-band window cap selection in `ThrottleManager::should_throttle`. -/
def band_cap_of (cfg : ThrottleConfig) (band : String) : ℕ :=
  if band = "high_conviction" then cfg.max_high_conviction_per_window
  else if band = "actionable" then cfg.max_actionable_per_window
  else if band = "heads_up" then cfg.max_headsup_per_window
  else cfg.max_watch_per_window

/-- `ThrottleManager::should_throttle` (src/analytics/src/throttles.cpp):
same-mint cooldown check, then the global window count, then the
per-band window count. -/
def should_throttle (cfg : ThrottleConfig) (now : ℕ) (hist : List AlertRecord)
    (mint band : String) : Bool :=
  if hist.any (fun r => r.mint == mint && decide (elapsedMin now r.ts < cooldown_of cfg band)) then
    true
  else if cfg.max_alerts_per_window ≤
      hist.countP (fun r => decide (elapsedMin now r.ts < cfg.rate_limit_window_min)) then
    true
  else if band_cap_of cfg band ≤
      hist.countP (fun r =>
        r.band == band && decide (elapsedMin now r.ts < cfg.rate_limit_window_min)) then
    true
  else
    false

/-- The maximum of the four configured cooldowns
(`std::max({...})` in `ThrottleManager::cleanup`). -/
def max_cooldown (cfg : ThrottleConfig) : ℕ :=
  max (max (max cfg.cooldown_high_conviction_min cfg.cooldown_actionable_min)
        cfg.cooldown_headsup_min) cfg.cooldown_watch_min

/-- `ThrottleManager::cleanup` (src/analytics/src/throttles.cpp): drop
records whose elapsed minutes exceed the maximum cooldown. -/
def throttle_cleanup (cfg : ThrottleConfig) (now : ℕ) (hist : List AlertRecord) :
    List AlertRecord :=
  hist.filter (fun r => !(decide (max_cooldown cfg < elapsedMin now r.ts)))

/-- `ThrottleManager::record_alert` (src/analytics/src/throttles.cpp):
append the new record, then prune. -/
def record_alert (cfg : ThrottleConfig) (now : ℕ) (hist : List AlertRecord)
    (mint band : String) : List AlertRecord :=
  throttle_cleanup cfg now (hist ++ [⟨mint, band, now⟩])

/-- A sequence of further `record_alert` calls, each given as
(call time, mint, band), applied in order. -/
def record_alert_seq (cfg : ThrottleConfig) (ops : List (ℕ × String × String))
    (hist : List AlertRecord) : List AlertRecord :=
  ops.foldl (fun h o => record_alert cfg o.1 h o.2.1 o.2.2) hist

/-- A concrete throttle configuration used to instantiate theorems. -/
def sampleThrottleConfig : ThrottleConfig :=
  { cooldown_high_conviction_min := 30, cooldown_actionable_min := 360
    cooldown_headsup_min := 60, cooldown_watch_min := 120
    rate_limit_window_min := 60, max_alerts_per_window := 5
    max_high_conviction_per_window := 2, max_actionable_per_window := 3
    max_headsup_per_window := 3, max_watch_per_window := 10 }

end Analytics

namespace Notifier

/-- The configuration fields read by the notifier policy layer
(src/notifier/src/throttler.cpp, deduplicator.cpp, notifier_service.cpp). -/
structure NotifierConfig where
  dedupe_period_sec : ℕ
  global_throttle_limit : ℕ
  global_throttle_period_sec : ℕ
  telegram_chat_id : ℤ

/-- The Redis keys touched by the notifier gates: the mute flag
(`notifier:mute_status`, present while unexpired), the actionable
throttle counter (`notifier:global_throttle:actionable`, value and
expiry), and the dedupe keys with their expiry times. -/
structure RedisState where
  muteExpiry : Option ℕ
  throttleCount : Option (ℕ × ℕ)
  dedupe : List (String × ℕ)

/-- A Redis connection: `none` is an unreachable server, on which every
operation throws. -/
abbrev RedisConn := Option RedisState

/-- `redis_->exists(mute_key_)` as seen through the connection: errors
when the server is down, otherwise reports whether the key is live. -/
def redis_exists_mute (now : ℕ) (conn : RedisConn) : Except Unit Bool :=
  match conn with
  | none => .error ()
  | some st =>
    .ok (match st.muteExpiry with
         | some e => decide (now < e)
         | none => false)

/-- `Throttler::is_muted` (src/notifier/src/throttler.cpp): the catch
block returns `false` when Redis is down. -/
def is_muted (now : ℕ) (conn : RedisConn) : Bool :=
  match redis_exists_mute now conn with
  | .ok b => b
  | .error _ => false

/-- `Throttler::is_globally_throttled` (src/notifier/src/throttler.cpp):
non-actionable severities are never throttled; for `"actionable"`, read
the counter and compare with the limit, and the catch block returns
`true` when Redis is down. -/
def is_globally_throttled (cfg : NotifierConfig) (now : ℕ) (conn : RedisConn)
    (severity : String) : Bool :=
  if severity ≠ "actionable" then false
  else
    match conn with
    | none => true
    | some st =>
      match st.throttleCount with
      | some (c, e) => if now < e then decide (cfg.global_throttle_limit ≤ c) else false
      | none => false

/-- `generate_reason_hash` (src/notifier/src/util.cpp): concatenate the
reason lines and hash the result; `hasher` stands for the
implementation-defined `std::hash<std::string>`. -/
def generate_reason_hash (hasher : String → ℕ) (reasons : List String) : String :=
  toString (hasher (String.join reasons))

/-- The `InboundAlert` fields read by the notifier policy
(src/notifier/src/notifier_service.cpp, deduplicator.cpp). -/
structure InboundAlert where
  severity : String
  symbol : String
  mint : String
  confidence : ℤ
  lines : List String

/-- The dedup key `notifier:dedupe:{mint}:{reason_hash}` built in
`Deduplicator::is_duplicate`. -/
def dedupe_key (hasher : String → ℕ) (alert : InboundAlert) : String :=
  "notifier:dedupe:" ++ alert.mint ++ ":" ++ generate_reason_hash hasher alert.lines

/-- `Deduplicator::is_duplicate` (src/notifier/src/deduplicator.cpp):
SETNX of the dedup key with TTL; returns true (duplicate) when the key
already existed, and the catch block returns true when Redis is down. -/
def is_duplicate (cfg : NotifierConfig) (hasher : String → ℕ) (now : ℕ)
    (conn : RedisConn) (alert : InboundAlert) : Bool × RedisConn :=
  let key := dedupe_key hasher alert
  match conn with
  | none => (true, none)
  | some st =>
    if st.dedupe.any (fun e => e.1 == key && decide (now < e.2)) then
      (true, some st)
    else
      (false, some { st with dedupe := (key, now + cfg.dedupe_period_sec) :: st.dedupe })

/-- `Throttler::record_actionable_alert` (src/notifier/src/throttler.cpp):
INCR the counter; when the result is 1 (key was missing or expired) the
window expiry is set; the catch block leaves the state unchanged. -/
def record_actionable_alert (cfg : NotifierConfig) (now : ℕ) (conn : RedisConn) :
    RedisConn :=
  match conn with
  | none => none
  | some st =>
    match st.throttleCount with
    | some (c, e) =>
      if now < e then some { st with throttleCount := some (c + 1, e) }
      else some { st with throttleCount := some (1, now + cfg.global_throttle_period_sec) }
    | none => some { st with throttleCount := some (1, now + cfg.global_throttle_period_sec) }

/-- The audit outcome recorded by `NotifierService::handle_inbound_alert`. -/
inductive Outcome where
  | MUTED
  | THROTTLED
  | DUPLICATE
  | SENT
  | PUBLISH_FAILED
deriving DecidableEq

/-- `NotifierService::handle_inbound_alert` (src/notifier/src/notifier_service.cpp):
mute gate, then global-throttle gate, then dedup gate, then publish.
`publish_ok` is whether `publish_outbound_alert` succeeds. The result is
the recorded outcome, the Redis connection afterwards, and the number of
outbound alerts published (1 on success, else 0). -/
def handle_inbound_alert (cfg : NotifierConfig) (hasher : String → ℕ) (now : ℕ)
    (publish_ok : Bool) (alert : InboundAlert) (conn : RedisConn) :
    Outcome × RedisConn × ℕ :=
  if is_muted now conn then (.MUTED, conn, 0)
  else if is_globally_throttled cfg now conn alert.severity then (.THROTTLED, conn, 0)
  else
    match is_duplicate cfg hasher now conn alert with
    | (true, conn1) => (.DUPLICATE, conn1, 0)
    | (false, conn1) =>
      if publish_ok then
        let conn2 := if alert.severity == "actionable" then
          record_actionable_alert cfg now conn1 else conn1
        (.SENT, conn2, 1)
      else (.PUBLISH_FAILED, conn1, 0)

/-- A concrete notifier configuration (TTL 6h as in the defaults). -/
def sampleNotifierConfig : NotifierConfig :=
  { dedupe_period_sec := 21600, global_throttle_limit := 5
    global_throttle_period_sec := 3600, telegram_chat_id := 1 }

/-- A concrete stand-in for `std::hash<std::string>`. -/
def sampleHasher : String → ℕ := fun s => s.length

/-- A concrete inbound alert. -/
def sampleAlert : InboundAlert :=
  { severity := "heads_up", symbol := "A", mint := "MintA"
    confidence := 72, lines := ["Liquidity OK", "Volume OK"] }

/-- The same fingerprint as `sampleAlert` (same mint, same lines), with a
different confidence. -/
def sampleAlert2 : InboundAlert :=
  { severity := "heads_up", symbol := "A", mint := "MintA"
    confidence := 75, lines := ["Liquidity OK", "Volume OK"] }

/-- A healthy, empty Redis state. -/
def emptyRedis : RedisState :=
  { muteExpiry := none, throttleCount := none, dedupe := [] }

end Notifier

namespace Gateway

/-- The gateway configuration fields read by the guest-login path
(src/tg_gateway/src/config.cpp: `GUEST_DEFAULT_MINUTES`, default 30). -/
structure GatewayConfig where
  guest_default_minutes : ℕ

/-- The `guest_pin:{pin}` keys: pin, owner id, expiry second. -/
abbrev PinStore := List (String × ℤ × ℕ)

/-- Guest sessions (`AuthManager::guest_sessions_`): user id and
`expires_at` in seconds. -/
abbrev Sessions := List (ℤ × ℕ)

/-- `RedisBus::store_guest_pin` (src/tg_gateway/src/redis_bus.cpp):
SETEX overwrites any previous value under the same pin. -/
def store_guest_pin (now : ℕ) (pin : String) (owner : ℤ) (ttl_seconds : ℕ)
    (store : PinStore) : PinStore :=
  (pin, owner, now + ttl_seconds) :: store.filter (fun e => !(e.1 == pin))

/-- `RedisBus::get_guest_pin_user` (src/tg_gateway/src/redis_bus.cpp):
the stored owner id while the key is unexpired, else none. -/
def get_guest_pin_user (now : ℕ) (pin : String) (store : PinStore) : Option ℤ :=
  (store.find? (fun e => e.1 == pin && decide (now < e.2.2))).map (fun e => e.2.1)

/-- `RedisBus::delete_guest_pin` (src/tg_gateway/src/redis_bus.cpp). -/
def delete_guest_pin (pin : String) (store : PinStore) : PinStore :=
  store.filter (fun e => !(e.1 == pin))

/-- `AuthManager::set_guest_session` (src/tg_gateway/src/auth.cpp):
overwrite the user's session with expiry `now + minutes * 60`. -/
def set_guest_session (now : ℕ) (user : ℤ) (minutes : ℕ) (sessions : Sessions) :
    Sessions :=
  (user, now + minutes * 60) :: sessions.filter (fun s => !(s.1 == user))

/-- Result of `TelegramGateway::handle_guest_login`: the chat messages
sent, the pin store afterwards, and the guest sessions afterwards. -/
structure LoginResult where
  messages : List (ℤ × String)
  store : PinStore
  sessions : Sessions
deriving DecidableEq

/-- `TelegramGateway::handle_guest_login` (src/tg_gateway/src/main.cpp):
look up the pin; on failure answer "Invalid or expired PIN"; on success
install a guest session of `guest_default_minutes` minutes, delete the
pin, and answer with the grant message. -/
def handle_guest_login (cfg : GatewayConfig) (now : ℕ) (pin : String)
    (user chat : ℤ) (store : PinStore) (sessions : Sessions) : LoginResult :=
  match get_guest_pin_user now pin store with
  | none => ⟨[(chat, "Invalid or expired PIN")], store, sessions⟩
  | some _ =>
    ⟨[(chat, "Guest access granted! Use /help for available commands.")],
     delete_guest_pin pin store,
     set_guest_session now user cfg.guest_default_minutes sessions⟩

/-- The pending-command map (`TelegramGateway::pending_commands_`):
correlation id, chat id, creation second. -/
abbrev PendingMap := List (String × ℤ × ℕ)

/-- The pending-map insertion in `TelegramGateway::forward_command`
(src/tg_gateway/src/main.cpp): `pending_commands_[corr_id] = {chat_id, now}`. -/
def forward_command_store (corr : String) (chat : ℤ) (now : ℕ) (m : PendingMap) :
    PendingMap :=
  (corr, chat, now) :: m.filter (fun e => !(e.1 == corr))

/-- `TelegramGateway::handle_command_reply` (src/tg_gateway/src/main.cpp):
look up the correlation id; unknown ids are dropped with no message; a
found entry is erased and the reply text is sent to the stored chat id
when that id is nonzero. -/
def handle_command_reply (corr msg : String) (m : PendingMap) :
    Option (ℤ × String) × PendingMap :=
  match m.find? (fun e => e.1 == corr) with
  | none => (none, m)
  | some e =>
    (if e.2.1 ≠ 0 then some (e.2.1, msg) else none,
     m.eraseP (fun x => x.1 == corr))

/-- The pending-command sweep in `TelegramGateway::cleanup_loop`
(src/tg_gateway/src/main.cpp): erase entries strictly older than
5 minutes (300 seconds). -/
def cleanup_pending (now : ℕ) (m : PendingMap) : PendingMap :=
  m.filter (fun e => !(decide (300 < now - e.2.2)))

end Gateway

namespace Ingestor

/-- The `PoolInfo` fields read by the tick filter
(src/ingestor/src/service.cpp). -/
structure PoolInfo where
  pool_id : String
  dex_name : String
  tvl_usd : ℚ
  volume_24h_usd : ℚ
deriving DecidableEq

/-- The ingestor configuration thresholds (src/ingestor/src/config.hpp). -/
structure IngestorConfig where
  min_tvl_threshold : ℚ
  min_volume_threshold : ℚ

/-- The filter loop in `Service::tick` (src/ingestor/src/service.cpp):
keep a pool when `tvl_usd >= min_tvl_threshold || volume_24h_usd >=
min_volume_threshold`; the resulting `filtered_pools` list is passed to
`pool_cache_.update_pools` and drives the published updates. -/
def tick_filter (cfg : IngestorConfig) (pools : List PoolInfo) : List PoolInfo :=
  pools.filter (fun p =>
    decide (cfg.min_tvl_threshold ≤ p.tvl_usd) ||
    decide (cfg.min_volume_threshold ≤ p.volume_24h_usd))

/-- The `MarketUpdate` fields copied from the pool by
`Service::create_market_update` (src/ingestor/src/service.cpp). -/
structure MarketUpdateOut where
  pool_id : String
  dex_name : String
  tvl_usd : ℚ
  volume_24h_usd : ℚ
deriving DecidableEq

/-- `Service::create_market_update` restricted to the copied fields
verified here. -/
def create_market_update (p : PoolInfo) : MarketUpdateOut :=
  ⟨p.pool_id, p.dex_name, p.tvl_usd, p.volume_24h_usd⟩

/-- The updates published by `Service::tick`: one per retained pool. -/
def tick_published (cfg : IngestorConfig) (pools : List PoolInfo) :
    List MarketUpdateOut :=
  (tick_filter cfg pools).map create_market_update

/-- The filter `DexClient::fetch_pools` itself applies before returning
(src/ingestor/src/dex_client.cpp): it REMOVES a pool when
`tvl_usd < min_tvl_threshold || volume_24h_usd < min_volume_threshold`,
so only pools passing BOTH thresholds are returned to the service. -/
def dex_client_filter (cfg : IngestorConfig) (pools : List PoolInfo) : List PoolInfo :=
  pools.filter (fun p =>
    !(decide (p.tvl_usd < cfg.min_tvl_threshold) ||
      decide (p.volume_24h_usd < cfg.min_volume_threshold)))

end Ingestor

/-- Each band's cooldown is bounded by the pruning horizon
`max_cooldown`, whatever the band string. -/
theorem cooldown_of_le_max_cooldown (cfg : Analytics.ThrottleConfig) (b : String) :
    Analytics.cooldown_of cfg b ≤ Analytics.max_cooldown cfg := by
  unfold Analytics.cooldown_of Analytics.max_cooldown
  split_ifs
  · exact le_sup_of_le_left (le_sup_of_le_left le_sup_left)
  · exact le_sup_of_le_left (le_sup_of_le_left le_sup_right)
  · exact le_sup_of_le_left le_sup_right
  · exact le_sup_right

/-- A history record young enough for the pruning horizon survives a
`record_alert` call. -/
theorem mem_record_alert_of_mem (cfg : Analytics.ThrottleConfig) (t' : ℕ)
    (hist : List Analytics.AlertRecord) (m b : String)
    (r : Analytics.AlertRecord) (hr : r ∈ hist)
    (hkeep : Analytics.elapsedMin t' r.ts ≤ Analytics.max_cooldown cfg) :
    r ∈ Analytics.record_alert cfg t' hist m b := by
  unfold Analytics.record_alert Analytics.throttle_cleanup
  refine List.mem_filter.mpr ⟨List.mem_append_left _ hr, ?_⟩
  simp only [Bool.not_eq_true', decide_eq_false_iff_not, not_lt]
  exact hkeep

/-- A young-enough record survives a whole sequence of `record_alert`
calls. -/
theorem mem_record_alert_seq_of_mem (cfg : Analytics.ThrottleConfig)
    (ops : List (ℕ × String × String)) (hist : List Analytics.AlertRecord)
    (r : Analytics.AlertRecord) (hr : r ∈ hist)
    (hops : ∀ o ∈ ops, Analytics.elapsedMin o.1 r.ts ≤ Analytics.max_cooldown cfg) :
    r ∈ Analytics.record_alert_seq cfg ops hist := by
  induction ops generalizing hist with
  | nil => exact hr
  | cons o os ih =>
    exact ih (Analytics.record_alert cfg o.1 hist o.2.1 o.2.2)
      (mem_record_alert_of_mem cfg o.1 hist o.2.1 o.2.2 r hr
        (hops o (List.mem_cons_self o os)))
      (fun o' ho' => hops o' (List.mem_cons_of_mem o ho'))

/-- C4: after `ThrottleManager::record_alert(m, b)` at time `t`, every
`should_throttle(m, b)` call up to `now` — even with further
`record_alert` calls in between, at times between `t` and `now` —
returns true while fewer whole minutes than `b`'s positive configured
cooldown have elapsed: the same-mint cooldown branch fires. -/
theorem throttle_cooldown_after_record (cfg : Analytics.ThrottleConfig)
    (s : List Analytics.AlertRecord) (m b : String) (t now : ℕ)
    (ops : List (ℕ × String × String))
    (hpos : 0 < Analytics.cooldown_of cfg b)
    (ht : t ≤ now)
    (hel : Analytics.elapsedMin now t < Analytics.cooldown_of cfg b)
    (hops : ∀ o ∈ ops, t ≤ o.1 ∧ o.1 ≤ now) :
    Analytics.should_throttle cfg now
      (Analytics.record_alert_seq cfg ops (Analytics.record_alert cfg t s m b))
      m b = true := by
  have hmem0 : (⟨m, b, t⟩ : Analytics.AlertRecord) ∈
      Analytics.record_alert cfg t s m b := by
    unfold Analytics.record_alert Analytics.throttle_cleanup
    refine List.mem_filter.mpr
      ⟨List.mem_append_right _ (List.mem_singleton_self _), ?_⟩
    simp [Analytics.elapsedMin]
  have hmem : (⟨m, b, t⟩ : Analytics.AlertRecord) ∈
      Analytics.record_alert_seq cfg ops (Analytics.record_alert cfg t s m b) := by
    refine mem_record_alert_seq_of_mem cfg ops _ _ hmem0 (fun o ho => ?_)
    have h1 : Analytics.elapsedMin o.1 t ≤ Analytics.elapsedMin now t :=
      Nat.div_le_div_right (Nat.sub_le_sub_right (hops o ho).2 t)
    exact le_trans h1
      (le_trans (le_of_lt hel) (cooldown_of_le_max_cooldown cfg b))
  have hany : (Analytics.record_alert_seq cfg ops
      (Analytics.record_alert cfg t s m b)).any
      (fun r => r.mint == m && decide (Analytics.elapsedMin now r.ts <
        Analytics.cooldown_of cfg b)) = true := by
    refine List.any_eq_true.mpr ⟨⟨m, b, t⟩, hmem, ?_⟩
    simp [hel]
  unfold Analytics.should_throttle
  rw [if_pos hany]

/-- Witness for C4: an empty history, a record for mint "MintA" in band
"actionable" at second 0, queried at second 120 (2 elapsed minutes,
cooldown 360 minutes), with no intervening records. -/
theorem throttle_cooldown_after_record_witness :
    0 < Analytics.cooldown_of Analytics.sampleThrottleConfig "actionable" ∧
    (0 : ℕ) ≤ 120 ∧
    Analytics.elapsedMin 120 0 <
      Analytics.cooldown_of Analytics.sampleThrottleConfig "actionable" ∧
    Analytics.should_throttle Analytics.sampleThrottleConfig 120
      (Analytics.record_alert_seq Analytics.sampleThrottleConfig []
        (Analytics.record_alert Analytics.sampleThrottleConfig 0 [] "MintA" "actionable"))
      "MintA" "actionable" = true :=
  ⟨by decide, by decide, by decide,
   throttle_cooldown_after_record Analytics.sampleThrottleConfig [] "MintA"
     "actionable" 0 120 [] (by decide) (by decide) (by decide)
     (by intro o ho; cases ho)⟩

/-- C7: in `Service::tick`, a pool from the list the DEX client returned
is retained — kept in `filtered_pools`, hence passed to the pool cache
and published — exactly when its TVL meets `min_tvl_threshold` or its
24h volume meets `min_volume_threshold`; each retained pool yields its
`MarketUpdate` in the published batch. -/
theorem tick_filter_disjunctive (cfg : Ingestor.IngestorConfig)
    (pools : List Ingestor.PoolInfo) (p : Ingestor.PoolInfo) :
    (p ∈ Ingestor.tick_filter cfg pools ↔
      p ∈ pools ∧ (cfg.min_tvl_threshold ≤ p.tvl_usd ∨
        cfg.min_volume_threshold ≤ p.volume_24h_usd)) ∧
    (Ingestor.create_market_update p ∈ Ingestor.tick_published cfg pools ↔
      p ∈ Ingestor.tick_filter cfg pools) := by
  constructor
  · simp [Ingestor.tick_filter, List.mem_filter]
  · constructor
    · intro hmem
      rcases List.mem_map.mp hmem with ⟨q, hq, hqp⟩
      cases q
      cases p
      simp only [Ingestor.create_market_update, Ingestor.MarketUpdateOut.mk.injEq]
        at hqp
      obtain ⟨h1, h2, h3, h4⟩ := hqp
      subst h1; subst h2; subst h3; subst h4
      exact hq
    · exact fun hmem => List.mem_map_of_mem Ingestor.create_market_update hmem

/-- `record_actionable_alert` touches only the throttle counter: the
connection stays up and the dedupe keys are unchanged. -/
theorem record_actionable_alert_dedupe (cfg : Notifier.NotifierConfig) (now : ℕ)
    (st : Notifier.RedisState) :
    ∃ st' : Notifier.RedisState,
      Notifier.record_actionable_alert cfg now (some st) = some st' ∧
      st'.dedupe = st.dedupe ∧ st'.muteExpiry = st.muteExpiry := by
  rcases hc : st.throttleCount with _ | ⟨c, e⟩
  · refine ⟨{ st with throttleCount := some (1, now + cfg.global_throttle_period_sec) }, ?_, rfl, rfl⟩
    simp [Notifier.record_actionable_alert, hc]
  · by_cases hlt : now < e
    · refine ⟨{ st with throttleCount := some (c + 1, e) }, ?_, rfl, rfl⟩
      simp [Notifier.record_actionable_alert, hc, hlt]
    · refine ⟨{ st with throttleCount := some (1, now + cfg.global_throttle_period_sec) }, ?_, rfl, rfl⟩
      simp [Notifier.record_actionable_alert, hc, hlt]

/-- C3 (counterexample): when Redis is unreachable the mute gate does
NOT treat the failure as muted — `Throttler::is_muted`'s catch block
returns false, the gate passes, and a concrete non-actionable alert
falls through to the dedup gate and is recorded DUPLICATE, not MUTED. -/
theorem mute_gate_fails_open_counterexample :
    Notifier.is_muted 0 none = false ∧
    (Notifier.handle_inbound_alert Notifier.sampleNotifierConfig
      Notifier.sampleHasher 0 true Notifier.sampleAlert none).1 =
      Notifier.Outcome.DUPLICATE := by
  constructor
  · rfl
  · rfl

/-- C3 (amended): when every Redis operation fails during the gate
checks, the notifier still publishes nothing — the outcome is never
SENT — but the gates do not all fail closed: the mute gate fails open
(reports not muted), while the global-throttle gate (for severity
"actionable") and the dedup gate fail closed (report throttled /
duplicate). -/
theorem notifier_redis_down_never_sends (cfg : Notifier.NotifierConfig)
    (hasher : String → ℕ) (now : ℕ) (publish_ok : Bool)
    (alert : Notifier.InboundAlert) :
    (Notifier.handle_inbound_alert cfg hasher now publish_ok alert none).1 ≠
      Notifier.Outcome.SENT ∧
    Notifier.is_muted now none = false ∧
    Notifier.is_globally_throttled cfg now none "actionable" = true ∧
    (Notifier.is_duplicate cfg hasher now none alert).1 = true := by
  refine ⟨?_, rfl, by simp [Notifier.is_globally_throttled], rfl⟩
  by_cases hsev : alert.severity = "actionable" <;>
    simp [Notifier.handle_inbound_alert, Notifier.is_muted,
      Notifier.redis_exists_mute, Notifier.is_globally_throttled,
      Notifier.is_duplicate, hsev]

/-- C5: two inbound alerts with the same dedup fingerprint (same mint,
same reason lines), the second arriving within the dedup TTL of the
first, both passing the mute and global-throttle gates, with the first
not already fingerprinted and its publish succeeding: the first is
recorded SENT, the second DUPLICATE, and exactly one outbound alert is
published. -/
theorem dedup_second_alert_duplicate (cfg : Notifier.NotifierConfig)
    (hasher : String → ℕ) (a1 a2 : Notifier.InboundAlert) (t1 t2 : ℕ)
    (p2 : Bool) (st : Notifier.RedisState)
    (hmint : a2.mint = a1.mint) (hlines : a2.lines = a1.lines)
    (httl : t2 < t1 + cfg.dedupe_period_sec)
    (hm1 : Notifier.is_muted t1 (some st) = false)
    (hg1 : Notifier.is_globally_throttled cfg t1 (some st) a1.severity = false)
    (hfresh : (Notifier.is_duplicate cfg hasher t1 (some st) a1).1 = false)
    (hm2 : Notifier.is_muted t2
      (Notifier.handle_inbound_alert cfg hasher t1 true a1 (some st)).2.1 = false)
    (hg2 : Notifier.is_globally_throttled cfg t2
      (Notifier.handle_inbound_alert cfg hasher t1 true a1 (some st)).2.1
      a2.severity = false) :
    (Notifier.handle_inbound_alert cfg hasher t1 true a1 (some st)).1 =
      Notifier.Outcome.SENT ∧
    (Notifier.handle_inbound_alert cfg hasher t2 p2 a2
      (Notifier.handle_inbound_alert cfg hasher t1 true a1 (some st)).2.1).1 =
      Notifier.Outcome.DUPLICATE ∧
    (Notifier.handle_inbound_alert cfg hasher t1 true a1 (some st)).2.2 +
      (Notifier.handle_inbound_alert cfg hasher t2 p2 a2
        (Notifier.handle_inbound_alert cfg hasher t1 true a1 (some st)).2.1).2.2 =
      1 := by
  set key1 : String := Notifier.dedupe_key hasher a1 with hkey1
  set st1 : Notifier.RedisState :=
    { st with dedupe := (key1, t1 + cfg.dedupe_period_sec) :: st.dedupe } with hst1
  have hdup1 : Notifier.is_duplicate cfg hasher t1 (some st) a1 = (false, some st1) := by
    by_cases hA : st.dedupe.any
        (fun e => e.1 == key1 && decide (t1 < e.2)) = true
    · exfalso
      rw [Notifier.is_duplicate] at hfresh
      simp only [← hkey1, hA, if_true] at hfresh
      exact Bool.true_eq_false.mp hfresh
    · rw [Notifier.is_duplicate]
      simp only [← hkey1, hA, Bool.false_eq_true, if_false]
  have hr1 : Notifier.handle_inbound_alert cfg hasher t1 true a1 (some st) =
      (Notifier.Outcome.SENT,
       if a1.severity == "actionable" then
         Notifier.record_actionable_alert cfg t1 (some st1) else some st1,
       1) := by
    rw [Notifier.handle_inbound_alert, hm1, hg1, hdup1]
    simp
  have hconn : ∃ stX : Notifier.RedisState,
      (Notifier.handle_inbound_alert cfg hasher t1 true a1 (some st)).2.1 =
        some stX ∧ stX.dedupe = st1.dedupe := by
    by_cases hsev : (a1.severity == "actionable") = true
    · rcases record_actionable_alert_dedupe cfg t1 st1 with ⟨st', h1, h2, _⟩
      exact ⟨st', by rw [hr1]; simp [hsev, h1], h2⟩
    · refine ⟨st1, by rw [hr1]; simp [hsev], rfl⟩
  rcases hconn with ⟨stX, hX, hXd⟩
  have hkey : Notifier.dedupe_key hasher a2 = key1 := by
    rw [hkey1]
    unfold Notifier.dedupe_key Notifier.generate_reason_hash
    rw [hmint, hlines]
  have hdup2 : Notifier.is_duplicate cfg hasher t2 (some stX) a2 = (true, some stX) := by
    rw [Notifier.is_duplicate]
    simp only [hkey, hXd, hst1, List.any_cons, beq_self_eq_true, Bool.true_and,
      decide_eq_true_eq]
    rw [if_pos]
    simp [httl]
  have hm2' : Notifier.is_muted t2 (some stX) = false := by rw [← hX]; exact hm2
  have hg2' : Notifier.is_globally_throttled cfg t2 (some stX) a2.severity = false := by
    rw [← hX]; exact hg2
  have hr2 : Notifier.handle_inbound_alert cfg hasher t2 p2 a2 (some stX) =
      (Notifier.Outcome.DUPLICATE, some stX, 0) := by
    rw [Notifier.handle_inbound_alert, hm2', hg2', hdup2]
    simp
  refine ⟨by rw [hr1], ?_, ?_⟩
  · rw [hX, hr2]
  · rw [hX, hr2, hr1]
    rfl

/-- Witness for C5: two concrete heads-up alerts for mint "MintA" with
identical reason lines, 100 seconds apart, against an initially empty
Redis state. -/
theorem dedup_second_alert_duplicate_witness :
    (100 : ℕ) < 0 + Notifier.sampleNotifierConfig.dedupe_period_sec ∧
    ((Notifier.handle_inbound_alert Notifier.sampleNotifierConfig
        Notifier.sampleHasher 0 true Notifier.sampleAlert
        (some Notifier.emptyRedis)).1 = Notifier.Outcome.SENT ∧
     (Notifier.handle_inbound_alert Notifier.sampleNotifierConfig
        Notifier.sampleHasher 100 true Notifier.sampleAlert2
        (Notifier.handle_inbound_alert Notifier.sampleNotifierConfig
          Notifier.sampleHasher 0 true Notifier.sampleAlert
          (some Notifier.emptyRedis)).2.1).1 = Notifier.Outcome.DUPLICATE ∧
     (Notifier.handle_inbound_alert Notifier.sampleNotifierConfig
        Notifier.sampleHasher 0 true Notifier.sampleAlert
        (some Notifier.emptyRedis)).2.2 +
       (Notifier.handle_inbound_alert Notifier.sampleNotifierConfig
          Notifier.sampleHasher 100 true Notifier.sampleAlert2
          (Notifier.handle_inbound_alert Notifier.sampleNotifierConfig
            Notifier.sampleHasher 0 true Notifier.sampleAlert
            (some Notifier.emptyRedis)).2.1).2.2 = 1) :=
  ⟨by decide,
   dedup_second_alert_duplicate Notifier.sampleNotifierConfig
     Notifier.sampleHasher Notifier.sampleAlert Notifier.sampleAlert2 0 100
     true Notifier.emptyRedis rfl rfl (by decide) (by decide) (by decide)
     (by decide) (by decide) (by decide)⟩

/-- C6 (code bug evaluation): the owner stores PIN "123456" with TTL
300 s at second 0; a user logs in immediately, so the PIN's residual TTL
is 300 s, yet the installed guest session expires at second 1800 —
`handle_guest_login` passes `guest_default_minutes` (30) to
`set_guest_session` instead of the residual TTL. The PIN is deleted, and
a repeated login is answered "Invalid or expired PIN" with no session
installed. -/
theorem guest_login_ignores_residual_ttl :
    (Gateway.handle_guest_login ⟨30⟩ 0 "123456" 42 42
      (Gateway.store_guest_pin 0 "123456" 7 300 []) []).sessions = [(42, 1800)] ∧
    (1800 : ℕ) ≠ 0 + 300 ∧
    (Gateway.handle_guest_login ⟨30⟩ 0 "123456" 42 42
      (Gateway.store_guest_pin 0 "123456" 7 300 []) []).store = [] ∧
    (Gateway.handle_guest_login ⟨30⟩ 10 "123456" 43 43
      (Gateway.handle_guest_login ⟨30⟩ 0 "123456" 42 42
        (Gateway.store_guest_pin 0 "123456" 7 300 []) []).store
      (Gateway.handle_guest_login ⟨30⟩ 0 "123456" 42 42
        (Gateway.store_guest_pin 0 "123456" 7 300 []) []).sessions).messages =
      [(43, "Invalid or expired PIN")] ∧
    (Gateway.handle_guest_login ⟨30⟩ 10 "123456" 43 43
      (Gateway.handle_guest_login ⟨30⟩ 0 "123456" 42 42
        (Gateway.store_guest_pin 0 "123456" 7 300 []) []).store
      (Gateway.handle_guest_login ⟨30⟩ 0 "123456" 42 42
        (Gateway.store_guest_pin 0 "123456" 7 300 []) []).sessions).sessions =
      [(42, 1800)] := by
  refine ⟨?_, by decide, ?_, ?_, ?_⟩ <;> rfl

/-- C8: publishing a command with a fresh correlation id leaves exactly
one pending entry under that id; the matching reply sends the text to
the stored chat id and removes the entry; the housekeeping sweep removes
the entry exactly when it is older than 5 minutes; a reply whose id has
no pending entry is dropped with nothing sent; and replies for other ids
leave the entry in place. -/
theorem pending_command_lifecycle (m : Gateway.PendingMap)
    (corr corr2 msg msg2 : String) (chat : ℤ) (now now2 now3 : ℕ)
    (hfresh : ∀ e ∈ m, e.1 ≠ corr)
    (hchat : chat ≠ 0)
    (hlate : 300 < now2 - now)
    (hearly : now3 - now ≤ 300)
    (hother : corr2 ≠ corr) :
    (Gateway.forward_command_store corr chat now m).filter
      (fun e => e.1 == corr) = [(corr, chat, now)] ∧
    Gateway.handle_command_reply corr msg
      (Gateway.forward_command_store corr chat now m) = (some (chat, msg), m) ∧
    (Gateway.cleanup_pending now2
      (Gateway.forward_command_store corr chat now m)).filter
      (fun e => e.1 == corr) = [] ∧
    (Gateway.cleanup_pending now3
      (Gateway.forward_command_store corr chat now m)).filter
      (fun e => e.1 == corr) = [(corr, chat, now)] ∧
    Gateway.handle_command_reply corr msg2 m = (none, m) ∧
    ((Gateway.handle_command_reply corr2 msg2
      (Gateway.forward_command_store corr chat now m)).2).filter
      (fun e => e.1 == corr) = [(corr, chat, now)] := by
  have hnil : ∀ l : Gateway.PendingMap, (∀ e ∈ l, e.1 ≠ corr) →
      l.filter (fun e => e.1 == corr) = [] := by
    intro l hl
    refine List.filter_eq_nil_iff.mpr (fun e he => ?_)
    simp [hl e he]
  have hmf : m.filter (fun e => !(e.1 == corr)) = m := by
    refine List.filter_eq_self.mpr (fun e he => ?_)
    simp [hfresh e he]
  have hforward : Gateway.forward_command_store corr chat now m =
      (corr, chat, now) :: m := by
    unfold Gateway.forward_command_store
    rw [hmf]
  have ha : (Gateway.forward_command_store corr chat now m).filter
      (fun e => e.1 == corr) = [(corr, chat, now)] := by
    rw [hforward, List.filter_cons]
    simp [hnil m hfresh]
  have hfindno : m.find? (fun e => e.1 == corr) = none := by
    refine List.find?_eq_none.mpr (fun e he => ?_)
    simp [hfresh e he]
  have htail2 : (m.filter (fun e => !decide (300 < now2 - e.2.2))).filter
      (fun e => e.1 == corr) = [] :=
    hnil _ (fun e he => hfresh e (List.mem_filter.mp he).1)
  have htail3 : (m.filter (fun e => !decide (300 < now3 - e.2.2))).filter
      (fun e => e.1 == corr) = [] :=
    hnil _ (fun e he => hfresh e (List.mem_filter.mp he).1)
  refine ⟨ha, ?_, ?_, ?_, ?_, ?_⟩
  · rw [hforward]
    unfold Gateway.handle_command_reply
    rw [List.find?_cons_of_pos _ (by simp)]
    simp [List.eraseP_cons, hchat]
  · rw [hforward]
    unfold Gateway.cleanup_pending
    simp [List.filter_cons, hlate, htail2]
  · rw [hforward]
    unfold Gateway.cleanup_pending
    simp [List.filter_cons, not_lt.mpr hearly, htail3, hnil m hfresh]
  · unfold Gateway.handle_command_reply
    rw [hfindno]
  · have hhead : ((corr : String) == corr2) = false :=
      beq_eq_false_iff_ne.mpr (Ne.symm hother)
    rw [hforward]
    unfold Gateway.handle_command_reply
    rw [List.find?_cons_of_neg _ (by simp [hhead])]
    rcases hf : m.find? (fun e => e.1 == corr2) with _ | e'
    · rw [hf]
      simp [List.filter_cons, hnil m hfresh]
    · rw [hf]
      have herase : List.eraseP (fun x => x.1 == corr2) ((corr, chat, now) :: m) =
          (corr, chat, now) :: m.eraseP (fun x => x.1 == corr2) := by
        simp [List.eraseP_cons, hhead]
      simp only [herase, List.filter_cons, beq_self_eq_true, if_true]
      simp [hnil _ (fun e he =>
        hfresh e (List.Sublist.subset (List.eraseP_sublist m) he))]

/-- Witness for C8 at a concrete pending map holding one other entry. -/
theorem pending_command_lifecycle_witness :
    ((7 : ℤ) ≠ 0 ∧ (300 : ℕ) < 400 - 10 ∧ (200 : ℕ) - 10 ≤ 300) ∧
    ((Gateway.forward_command_store "c1" 7 10 [("c0", 5, 0)]).filter
      (fun e => e.1 == "c1") = [("c1", 7, 10)] ∧
     Gateway.handle_command_reply "c1" "hi"
       (Gateway.forward_command_store "c1" 7 10 [("c0", 5, 0)]) =
       (some (7, "hi"), [("c0", 5, 0)]) ∧
     (Gateway.cleanup_pending 400
       (Gateway.forward_command_store "c1" 7 10 [("c0", 5, 0)])).filter
       (fun e => e.1 == "c1") = [] ∧
     (Gateway.cleanup_pending 200
       (Gateway.forward_command_store "c1" 7 10 [("c0", 5, 0)])).filter
       (fun e => e.1 == "c1") = [("c1", 7, 10)] ∧
     Gateway.handle_command_reply "c1" "bye" [("c0", 5, 0)] =
       (none, [("c0", 5, 0)]) ∧
     ((Gateway.handle_command_reply "c0" "bye"
       (Gateway.forward_command_store "c1" 7 10 [("c0", 5, 0)])).2).filter
       (fun e => e.1 == "c1") = [("c1", 7, 10)]) :=
  ⟨⟨by decide, by decide, by decide⟩,
   pending_command_lifecycle [("c0", 5, 0)] "c1" "c0" "hi" "bye" 7 10 400 200
     (by decide) (by decide) (by decide) (by decide) (by decide)⟩

/-- C1: `ConfidenceScorer::determine_band` returns `watch` whenever
`entry_confirmed` or `net_edge_ok` is false; otherwise `high_conviction`
at or above `high_conviction_min`, else `actionable` at or above
`actionable_base_threshold`, else `heads_up` inside
`[headsup_min, headsup_max]`, else `watch` — i.e. the source band
function agrees with the spec's band rule at every confidence score,
gate pair and configuration, so the result depends only on that data. -/
theorem determine_band_matches_spec_rule (cfg : Analytics.Config) (c : ℤ)
    (e n : Bool) :
    Analytics.determine_band cfg c e n = Analytics.specBand cfg c e n := by
  cases e <;> cases n <;>
    simp [Analytics.determine_band, Analytics.specBand]

/-- C2 (code bug): with the configuration defaults of
src/analytics/src/config.hpp (`risk_on_adj = -10`, `risk_off_adj = 10`),
`apply_risk_adjustment` does NOT re-clamp to [0,100]: a valid signal
result with every field in [0,1] and data quality 0 scores 0 and is then
adjusted to -10 under risk-on, and a maximal signal result scores 100
and is adjusted to 110 under risk-off. -/
theorem risk_adjustment_escapes_range :
    Analytics.apply_risk_adjustment Analytics.defaultConfig
      (Analytics.calculate_confidence Analytics.defaultConfig Analytics.zeroSignals)
      true = -10 ∧
    Analytics.apply_risk_adjustment Analytics.defaultConfig
      (Analytics.calculate_confidence Analytics.defaultConfig Analytics.oneSignals)
      false = 110 := by
  constructor <;>
    norm_num [Analytics.apply_risk_adjustment, Analytics.calculate_confidence,
      Analytics.defaultConfig, Analytics.zeroSignals, Analytics.oneSignals,
      cppTrunc, Analytics.weighted_sum]

/-- C9 (counterexample): for data quality 0.125 (exactly representable as
a double) the low-quality branch of `calculate_confidence` returns
`min(50, 12) = 12` because `static_cast<int>` truncates, while the
claim's `min(50, round(dq*100))` is 13. -/
theorem low_dq_rounding_counterexample :
    Analytics.calculate_confidence Analytics.defaultConfig Analytics.lowDqSignals = 12 ∧
    min 50 (round (Analytics.lowDqSignals.data_quality * 100)) = 13 := by
  constructor
  · norm_num [Analytics.calculate_confidence, Analytics.defaultConfig,
      Analytics.lowDqSignals, cppTrunc]
  · norm_num [Analytics.lowDqSignals, round_eq]

/-- C9 (amended): for every signal result whose data quality is
nonnegative and below `min_dq_for_actionable`, `calculate_confidence`
returns `min(50, trunc(dq*100))` — the floor of `dq*100`, i.e. truncation
toward zero, not rounding — ignoring the weighted sum of sub-signals. -/
theorem low_dq_confidence_truncates (cfg : Analytics.Config)
    (s : Analytics.SignalResult) (h0 : 0 ≤ s.data_quality)
    (h : s.data_quality < cfg.min_dq_for_actionable) :
    Analytics.calculate_confidence cfg s = min 50 ⌊s.data_quality * 100⌋ := by
  unfold Analytics.calculate_confidence
  rw [if_pos h]
  unfold cppTrunc
  rw [if_neg (not_lt.mpr (by positivity))]

/-- Witness for the amended C9 at data quality 1/2 under the default
configuration. -/
theorem low_dq_confidence_truncates_witness :
    0 ≤ Analytics.halfDqSignals.data_quality ∧
    Analytics.halfDqSignals.data_quality <
      Analytics.defaultConfig.min_dq_for_actionable ∧
    Analytics.calculate_confidence Analytics.defaultConfig Analytics.halfDqSignals =
      min 50 ⌊Analytics.halfDqSignals.data_quality * 100⌋ :=
  ⟨by norm_num [Analytics.halfDqSignals],
   by norm_num [Analytics.halfDqSignals, Analytics.defaultConfig],
   low_dq_confidence_truncates Analytics.defaultConfig Analytics.halfDqSignals
     (by norm_num [Analytics.halfDqSignals])
     (by norm_num [Analytics.halfDqSignals, Analytics.defaultConfig])⟩

/-- C10: `calculate_s7_rug_risk` returns exactly 0.5 without metadata;
with metadata (and a nonnegative pool age) the result is the product
`0.7 * age_factor * holder_factor * auth_factor`, which lies in
[0, 0.7] — so the `min(0.9, score)` cap never binds. -/
theorem s7_rug_risk_bounds (u : Analytics.MarketUpdate)
    (md : Analytics.TokenMetadata) (h : 0 ≤ u.age_hours) :
    Analytics.calculate_s7_rug_risk u none = 1/2 ∧
    0 ≤ Analytics.calculate_s7_rug_risk u (some md) ∧
    Analytics.calculate_s7_rug_risk u (some md) ≤ 7/10 ∧
    Analytics.calculate_s7_rug_risk u (some md) =
      (7/10) * Analytics.s7_age_factor u * Analytics.s7_holder_factor md *
        Analytics.s7_auth_factor md := by
  have ha0 : 0 ≤ Analytics.s7_age_factor u :=
    le_min zero_le_one (by positivity)
  have ha1 : Analytics.s7_age_factor u ≤ 1 := min_le_left _ _
  have hh0 : 0 ≤ Analytics.s7_holder_factor md := by
    unfold Analytics.s7_holder_factor
    split
    · exact le_max_left _ _
    · norm_num
  have hh1 : Analytics.s7_holder_factor md ≤ 1 := by
    unfold Analytics.s7_holder_factor
    split
    · rename_i hp
      exact max_le zero_le_one (by nlinarith)
    · exact le_refl 1
  have ht0 : 0 ≤ Analytics.s7_auth_factor md := by
    unfold Analytics.s7_auth_factor
    split <;> norm_num
  have ht1 : Analytics.s7_auth_factor md ≤ 1 := by
    unfold Analytics.s7_auth_factor
    split <;> norm_num
  have hscore0 : 0 ≤ (7/10 : ℚ) * Analytics.s7_age_factor u *
      Analytics.s7_holder_factor md * Analytics.s7_auth_factor md := by
    positivity
  have hscore1 : (7/10 : ℚ) * Analytics.s7_age_factor u *
      Analytics.s7_holder_factor md * Analytics.s7_auth_factor md ≤ 7/10 := by
    have p1 : Analytics.s7_age_factor u * Analytics.s7_holder_factor md ≤ 1 :=
      mul_le_one₀ ha1 hh0 hh1
    have p2 : Analytics.s7_age_factor u * Analytics.s7_holder_factor md *
        Analytics.s7_auth_factor md ≤ 1 := mul_le_one₀ p1 ht0 ht1
    nlinarith [p2]
  refine ⟨?_, ?_, ?_, ?_⟩
  · unfold Analytics.calculate_s7_rug_risk
    norm_num
  · unfold Analytics.calculate_s7_rug_risk
    simp only
    exact le_min (by norm_num) hscore0
  · unfold Analytics.calculate_s7_rug_risk
    simp only
    exact le_trans (min_le_right _ _) hscore1
  · unfold Analytics.calculate_s7_rug_risk
    simp only
    exact min_eq_right (le_trans hscore1 (by norm_num))

/-- Witness for C10 at a concrete update (age 200h) and metadata
(top holder 30%, risky authorities). -/
theorem s7_rug_risk_bounds_witness :
    0 ≤ Analytics.sampleUpdate.age_hours ∧
    (Analytics.calculate_s7_rug_risk Analytics.sampleUpdate none = 1/2 ∧
     0 ≤ Analytics.calculate_s7_rug_risk Analytics.sampleUpdate
       (some Analytics.sampleMetadata) ∧
     Analytics.calculate_s7_rug_risk Analytics.sampleUpdate
       (some Analytics.sampleMetadata) ≤ 7/10 ∧
     Analytics.calculate_s7_rug_risk Analytics.sampleUpdate
       (some Analytics.sampleMetadata) =
       (7/10) * Analytics.s7_age_factor Analytics.sampleUpdate *
         Analytics.s7_holder_factor Analytics.sampleMetadata *
         Analytics.s7_auth_factor Analytics.sampleMetadata) :=
  ⟨by norm_num [Analytics.sampleUpdate],
   s7_rug_risk_bounds Analytics.sampleUpdate Analytics.sampleMetadata
     (by norm_num [Analytics.sampleUpdate])⟩

end SolScout
